import Mathlib

/-!
# dota_lobby: bot manager, HTTP API and configuration validation

A shallow embedding of the Go sources

* `pkg/bot/manager.go`      (`Bot`, `Manager`, `AddBot`, `connectBot`, `GetAvailableBot`, ...)
* `pkg/api/server.go`       (`authMiddleware`, `handleCreateLobby`, `handleLobbyInfo`, ...)
* `internal/config/config.go` (`validate`)

Conventions.

* A Go `string` that holds text is a Lean `String`; Go's `len(s)` is the number of bytes of
  the UTF-8 encoding, `String.utf8ByteSize`, and `[]byte(s)` is `goBytes s`.
* A Go `map[string]T` is an association list `GoMap T`; `range` visits the entries in the
  order of the list, and since Go leaves that order unspecified, statements about the registry
  are proved for every list (every order of the entries).
* A Go function returning `(bot, err)` with a record of the registry or an error returns an
  `Except`; `GetDotaClient`, whose first result is the nullable field itself, returns the pair
  of options, `none` for nil.
* Locks are not modelled: a method that holds one lock for its whole body is one atomic step
  on the state. `handleCreateLobby` reads the record of the selected bot twice, under two
  separate locks, and takes the events its goroutine processes in between as an argument.
* The body of a request is given by what `encoding/json` decodes it to; that library is
  outside the repository and is not modelled.
-/

namespace DotaLobby

/-! ## Go maps with string keys -/

/-- A Go `map[string]α`, as the list of its entries. -/
abbrev GoMap (α : Type) := List (String × α)

namespace GoMap

/-- The index expression `v, exists := m[k]`. -/
def get? {α : Type} (m : GoMap α) (k : String) : Option α :=
  match m with
  | [] => none
  | (k', v) :: rest => if k' = k then some v else get? rest k

/-- The assignment `m[k] = v`: overwrite the entry of `k`, or add one. -/
def set {α : Type} (m : GoMap α) (k : String) (v : α) : GoMap α :=
  match m with
  | [] => [(k, v)]
  | (k', v') :: rest => if k' = k then (k, v) :: rest else (k', v') :: set rest k v

/-- The keys of the map. -/
def keys {α : Type} (m : GoMap α) : List String := m.map Prod.fst

end GoMap

/-! ## `pkg/config`: bot credentials -/

/-- The struct `config.BotConfig` of `pkg/config/config.go`. -/
structure BotConfig where
  Username : String
  Password : String
  SentryHash : String
  deriving DecidableEq, Repr

/-! ## `pkg/bot/manager.go` -/

/-- A call made on the external Steam client. -/
inductive SteamCall where
  | Connect
  | LogOn (Username Password : String)
  | SetPersonaStateOnline
  | Disconnect
  deriving DecidableEq, Repr

/-- The external `steam.Client`, as the list of calls made on it so far (latest first). -/
structure SteamClient where
  calls : List SteamCall
  deriving DecidableEq, Repr

/-- The constructor `steam.NewClient()`. -/
def SteamClient.NewClient : SteamClient := ⟨[]⟩

/-- Record one call on the client. -/
def SteamClient.call (c : SteamClient) (x : SteamCall) : SteamClient := ⟨x :: c.calls⟩

/-- The external `dota2.Dota2` game-coordinator client; it is built from a Steam client. -/
structure Dota2 where
  client : SteamClient
  deriving DecidableEq, Repr

/-- The constructor `dota2.New(steamClient, logger)`, which never returns nil. -/
def Dota2.New (client : SteamClient) : Dota2 := ⟨client⟩

/-- The struct `Bot`; `dotaClient` is a pointer, `none` when nil. -/
structure Bot where
  Username : String
  steamClient : SteamClient
  dotaClient : Option Dota2
  connected : Bool
  deriving DecidableEq, Repr

/-- The events of the Steam client that `connectBot` switches on; every other event type is
`Other` and falls through the switch. -/
inductive SteamEvent where
  | Connected
  | LoggedOn
  | LogOnFailed (Result : Int)
  | Disconnected
  | LoggedOff (Result : Int)
  | Other
  deriving DecidableEq, Repr

/-- The struct `Manager`: the registry and whether its context has been cancelled. -/
structure Manager where
  bots : GoMap Bot
  ctxDone : Bool
  deriving DecidableEq, Repr

/-- The constructor `NewManager()`. -/
def NewManager : Manager := { bots := [], ctxDone := false }

/-- The bot record that `AddBot` builds for a configuration (zero values for the rest). -/
def newBot (cfg : BotConfig) : Bot :=
  { Username := cfg.Username, steamClient := SteamClient.NewClient,
    dotaClient := none, connected := false }

/-- The body of the `switch` in `connectBot`: what one event does to the bot record.
The sleeps before a reconnect are not state and are left out. -/
def connectBotEvent (bot : Bot) (cfg : BotConfig) : SteamEvent → Bot
  | .Connected =>
    { bot with steamClient := bot.steamClient.call (.LogOn cfg.Username cfg.Password) }
  | .LoggedOn =>
    let bot1 := { bot with connected := true }
    let bot2 := { bot1 with dotaClient := some (Dota2.New bot1.steamClient) }
    { bot2 with steamClient := bot2.steamClient.call .SetPersonaStateOnline }
  | .LogOnFailed _ =>
    let bot1 := { bot with connected := false }
    { bot1 with steamClient := bot1.steamClient.call .Connect }
  | .Disconnected =>
    let bot1 := { bot with connected := false }
    { bot1 with steamClient := bot1.steamClient.call .Connect }
  | .LoggedOff _ => bot
  | .Other => bot

/-- The loop `for event := range bot.steamClient.Events()` of `connectBot`. Each event comes
with the answer of the `select` on `m.ctx.Done()` at that moment: when the context is done the
function returns and the remaining events are not processed. -/
def connectBotLoop (bot : Bot) (cfg : BotConfig) : List (Bool × SteamEvent) → Bot
  | [] => bot
  | (done, e) :: rest =>
    if done then bot else connectBotLoop (connectBotEvent bot cfg e) cfg rest

/-- The first statement of `connectBot`: `bot.steamClient.Connect()`. -/
def connectBotStart (bot : Bot) : Bot :=
  { bot with steamClient := bot.steamClient.call .Connect }

/-- The function `Manager.connectBot`: connect, then process the events. -/
def connectBot (bot : Bot) (cfg : BotConfig) (events : List (Bool × SteamEvent)) : Bot :=
  connectBotLoop (connectBotStart bot) cfg events

/-- The method `Manager.AddBot`: the new registry and the error (`none` for nil). The goroutine
it starts is `connectBot` on the new record; its steps are `Manager.start` and
`Manager.deliver` below. -/
def AddBot (m : Manager) (cfg : BotConfig) : Manager × Option String :=
  match m.bots.get? cfg.Username with
  | some _ => (m, some ("bot with username " ++ cfg.Username ++ " already exists"))
  | none => ({ m with bots := m.bots.set cfg.Username (newBot cfg) }, none)

/-- A step of the `connectBot` goroutine of the bot registered under `username`, seen from
the registry: the record in the map is the one the goroutine mutates. -/
def Manager.update (m : Manager) (username : String) (f : Bot → Bot) : Manager :=
  { m with bots := m.bots.map fun kb => if kb.1 = username then (kb.1, f kb.2) else kb }

/-- The first step of the goroutine that `AddBot` starts for `username`. -/
def Manager.start (m : Manager) (username : String) : Manager :=
  m.update username connectBotStart

/-- One iteration of the loop of the `connectBot` goroutine of `username`: return if the
context is done, else handle the event. -/
def Manager.deliver (m : Manager) (username : String) (cfg : BotConfig) (e : SteamEvent) :
    Manager :=
  if m.ctxDone then m else m.update username fun bot => connectBotEvent bot cfg e

/-- The method `Manager.GetBot`. -/
def GetBot (m : Manager) (username : String) : Except String Bot :=
  match m.bots.get? username with
  | none => .error ("bot with username " ++ username ++ " not found")
  | some bot => .ok bot

/-- The loop of `GetAvailableBot` over the entries in the order `range` visits them. -/
def firstConnected : GoMap Bot → Option Bot
  | [] => none
  | (_, bot) :: rest => if bot.connected then some bot else firstConnected rest

/-- The method `Manager.GetAvailableBot`. -/
def GetAvailableBot (m : Manager) : Except String Bot :=
  match firstConnected m.bots with
  | some bot => .ok bot
  | none => .error "no available bots"

/-- The method `Manager.ListBots`: a fresh map filled entry by entry. -/
def ListBots (m : Manager) : GoMap Bool :=
  m.bots.foldl (fun result kb => result.set kb.1 kb.2.connected) []

/-- The method `Bot.GetDotaClient`. -/
def Bot.GetDotaClient (b : Bot) : Option Dota2 × Option String :=
  if !b.connected || b.dotaClient.isNone then (none, some "bot is not connected")
  else (b.dotaClient, none)

/-- The method `Bot.IsConnected`. -/
def Bot.IsConnected (b : Bot) : Bool := b.connected

/-- The method `Manager.Shutdown`: cancel the context and disconnect every Steam client. -/
def Shutdown (m : Manager) : Manager :=
  { bots := m.bots.map fun kb =>
      (kb.1, { kb.2 with steamClient := kb.2.steamClient.call .Disconnect }),
    ctxDone := true }

/-- The loop of `cmd/dota_lobby/main.go` that adds the configured bots one by one; the result
is the registry and the error of each call, in order. -/
def addBots (m : Manager) : List BotConfig → Manager × List (Option String)
  | [] => (m, [])
  | cfg :: rest =>
    let r := AddBot m cfg
    let rs := addBots r.1 rest
    (rs.1, r.2 :: rs.2)

/-- The registries the program can be in: a new manager, after any number of `AddBot` calls,
iterations of the bots' `connectBot` goroutines and `Shutdown`, with its entries in any
order (the order `range` visits a Go map is not fixed). -/
inductive Reachable : Manager → Prop where
  | newManager : Reachable NewManager
  | addBot (m : Manager) (cfg : BotConfig) : Reachable m → Reachable (AddBot m cfg).1
  | start (m : Manager) (username : String) : Reachable m → Reachable (m.start username)
  | deliver (m : Manager) (username : String) (cfg : BotConfig) (e : SteamEvent) :
      Reachable m → Reachable (m.deliver username cfg e)
  | shutdown (m : Manager) : Reachable m → Reachable (Shutdown m)
  | reorder (m : Manager) (bots : GoMap Bot) :
      Reachable m → m.bots.Perm bots → Reachable { m with bots := bots }

/-! ## `pkg/api/server.go` -/

/-- The conversion `[]byte(s)`: the bytes of the UTF-8 encoding. -/
def goBytes (s : String) : List UInt8 := s.toUTF8.data.toList

/-- The values of the bytes that encode the code point `n` in UTF-8; `goBytes` is shown
below to produce these, which is what makes `[]byte` injective on strings. -/
def utf8Values (n : Nat) : List Nat :=
  if n ≤ 127 then [n % 256]
  else if n ≤ 2047 then [192 + n / 64 % 32, 128 + n % 64]
  else if n ≤ 65535 then [224 + n / 4096 % 16, 128 + n / 64 % 64, 128 + n % 64]
  else [240 + n / 262144 % 8, 128 + n / 4096 % 64, 128 + n / 64 % 64, 128 + n % 64]

/-- The builtin `len(s)` on a string: its number of bytes. -/
def goLen (s : String) : Nat := s.utf8ByteSize

/-- The constant `bearerPrefix`. -/
def bearerPrefix : String := "Bearer "

/-- The struct `Server` (the `http.Server` field plays no part in the handlers). -/
structure Server where
  botManager : Manager
  apiKey : String
  deriving DecidableEq, Repr

/-- The struct `LobbyCreateRequest`. -/
structure LobbyCreateRequest where
  LobbyName : String
  Password : String
  ServerRegion : String
  GameMode : String
  deriving DecidableEq, Repr

/-- The struct `LobbyInfoRequest`. -/
structure LobbyInfoRequest where
  LobbyID : String
  deriving DecidableEq, Repr

/-- The body of a request, given by what `json.NewDecoder(r.Body).Decode(&req)` returns for it
for each of the two structs the handlers decode into: the error, or the struct as the decoder
filled it. The library `encoding/json` is not part of the repository and is not modelled
(how it matches the keys of the object with the `json` tags, which value of a repeated key it
keeps); a field that the decoder does not set keeps its zero value, the empty string. -/
structure Body where
  asLobbyCreateRequest : Except String LobbyCreateRequest
  asLobbyInfoRequest : Except String LobbyInfoRequest

/-- A body that the decoder rejects with the error `err`, such as an empty body (`EOF`). -/
def Body.invalid (err : String) : Body :=
  { asLobbyCreateRequest := .error err, asLobbyInfoRequest := .error err }

/-- The parts of `http.Request` the handlers read. The keys of `Header` are the header names
as the source writes them (`X-API-Key`, `Authorization`); `Query` is `r.URL.Query()`. -/
structure Request where
  Method : String
  Header : GoMap (List String)
  Query : GoMap (List String)
  Body : Body

/-- The method `Get` of `http.Header` and `url.Values`: the first value of the key, or the
empty string. -/
def Values.Get (v : GoMap (List String)) (key : String) : String :=
  match v.get? key with
  | some (x :: _) => x
  | _ => ""

/-- A value in a JSON response: a string, or the map of `ListBots`. -/
inductive JsonValue where
  | str (s : String)
  | bools (m : GoMap Bool)
  deriving DecidableEq, Repr

/-- A response body: the line written by `http.Error`, or an encoded JSON object. -/
inductive ResponseBody where
  | text (line : String)
  | json (fields : GoMap JsonValue)
  deriving DecidableEq, Repr

/-- What a handler writes to the `http.ResponseWriter`. -/
structure Response where
  StatusCode : Nat
  ContentType : String
  Body : ResponseBody
  deriving DecidableEq, Repr

/-- The library function `http.Error(w, msg, code)`. -/
def httpError (msg : String) (code : Nat) : Response :=
  { StatusCode := code, ContentType := "text/plain; charset=utf-8", Body := .text msg }

/-- A JSON response: the `Content-Type` header, the status and the encoded map. -/
def jsonResponse (code : Nat) (fields : GoMap JsonValue) : Response :=
  { StatusCode := code, ContentType := "application/json", Body := .json fields }

/-- The library function `subtle.ConstantTimeCompare`: 1 if the two slices have equal
contents, 0 otherwise. -/
def ConstantTimeCompare (x y : List UInt8) : Nat := if x = y then 1 else 0

/-- The method `Server.authMiddleware`. -/
def Server.authMiddleware (s : Server) (next : Request → Response) : Request → Response :=
  fun r =>
    if s.apiKey = "" then next r
    else
      let apiKey := Values.Get r.Header "X-API-Key"
      let apiKey : List UInt8 :=
        if apiKey = "" then
          let authHeader := goBytes (Values.Get r.Header "Authorization")
          if authHeader.length > goLen bearerPrefix ∧
              authHeader.take (goLen bearerPrefix) = goBytes bearerPrefix then
            authHeader.drop (goLen bearerPrefix)
          else goBytes apiKey
        else goBytes apiKey
      if ConstantTimeCompare apiKey (goBytes s.apiKey) ≠ 1 then
        httpError "Unauthorized: Invalid or missing API key" 401
      else next r

/-- The method `Server.handleBots`. -/
def Server.handleBots (s : Server) (r : Request) : Response :=
  if r.Method ≠ "GET" then httpError "Method not allowed" 405
  else jsonResponse 200 [("bots", .bools (ListBots s.botManager))]

/-- The call `json.NewDecoder(r.Body).Decode(&req)` for a `LobbyCreateRequest`. -/
def decodeLobbyCreateRequest (body : Body) : Except String LobbyCreateRequest :=
  body.asLobbyCreateRequest

/-- The method `Server.handleCreateLobby`. `GetAvailableBot` returns a pointer to the shared
record of the selected bot and releases its lock, and `GetDotaClient` reads that record again
later: `between` are the events that the `connectBot` goroutine of the selected bot, started
with `cfg`, processes between the two reads (none when nothing is interleaved). -/
def Server.handleCreateLobby (s : Server) (r : Request) (cfg : BotConfig)
    (between : List (Bool × SteamEvent)) : Response :=
  if r.Method ≠ "POST" then httpError "Method not allowed" 405
  else
    match decodeLobbyCreateRequest r.Body with
    | .error err => httpError ("Invalid request body: " ++ err) 400
    | .ok req =>
      if req.LobbyName = "" then httpError "lobby_name is required" 400
      else if goLen req.LobbyName > 100 then
        httpError "lobby_name must be 100 characters or less" 400
      else if goLen req.Password > 50 then
        httpError "password must be 50 characters or less" 400
      else
        match GetAvailableBot s.botManager with
        | .error err => httpError ("No available bots: " ++ err) 503
        | .ok availableBot =>
          let availableBot := connectBotLoop availableBot cfg between
          match availableBot.GetDotaClient.2 with
          | some err => httpError ("Bot not ready: " ++ err) 503
          | none =>
            jsonResponse 201
              [("status", .str "success"),
               ("message", .str "Lobby creation initiated"),
               ("lobby_name", .str req.LobbyName),
               ("bot_used", .str availableBot.Username)]

/-- The call `json.NewDecoder(r.Body).Decode(&req)` for a `LobbyInfoRequest`. -/
def decodeLobbyInfoRequest (body : Body) : Except String LobbyInfoRequest :=
  body.asLobbyInfoRequest

/-- The rest of `handleLobbyInfo` once `lobbyID` has been read. -/
def lobbyInfoResponse (lobbyID : String) : Response :=
  if lobbyID = "" then httpError "lobby_id is required" 400
  else
    jsonResponse 200
      [("status", .str "success"),
       ("lobby_id", .str lobbyID),
       ("message", .str "Lobby info retrieval not yet fully implemented")]

/-- The method `Server.handleLobbyInfo`. -/
def Server.handleLobbyInfo (_s : Server) (r : Request) : Response :=
  if r.Method ≠ "GET" ∧ r.Method ≠ "POST" then httpError "Method not allowed" 405
  else if r.Method = "GET" then lobbyInfoResponse (Values.Get r.Query "lobby_id")
  else
    match decodeLobbyInfoRequest r.Body with
    | .error err => httpError ("Invalid request body: " ++ err) 400
    | .ok req => lobbyInfoResponse req.LobbyID

/-! ## `internal/config/config.go` -/

namespace Internal

/-- The struct `ServerConfig`; `Port` is a Go `int`. -/
structure ServerConfig where
  Port : Int
  Host : String
  deriving DecidableEq, Repr

/-- The struct `BotConfig` of `internal/config`. -/
structure BotConfig where
  Name : String
  Username : String
  Password : String
  Enabled : Bool
  deriving DecidableEq, Repr

/-- The struct `SteamConfig`. -/
structure SteamConfig where
  APIKey : String
  deriving DecidableEq, Repr

/-- The struct `Config`. -/
structure Config where
  Server : ServerConfig
  Bots : List BotConfig
  Steam : SteamConfig
  deriving DecidableEq, Repr

/-- The loop `for i, bot := range cfg.Bots` of `validate`, from index `i` on. -/
def validateBots (i : Nat) : List BotConfig → Option String
  | [] => none
  | bot :: rest =>
    if bot.Username = "" then some ("bot " ++ toString i ++ ": username is required")
    else if bot.Password = "" then some ("bot " ++ toString i ++ ": password is required")
    else validateBots (i + 1) rest

/-- The function `validate`: the error, or `none` for nil. -/
def validate (cfg : Config) : Option String :=
  if cfg.Server.Port ≤ 0 ∨ cfg.Server.Port > 65535 then
    some ("invalid server port: " ++ toString cfg.Server.Port)
  else if cfg.Bots.length = 0 then some "at least one bot must be configured"
  else validateBots 0 cfg.Bots

end Internal

/-! ## Sample inputs -/

/-- A sample bot configuration. -/
def sampleCfg : BotConfig := { Username := "bot1", Password := "hunter2", SentryHash := "" }

/-- A second sample bot configuration. -/
def sampleCfg2 : BotConfig := { Username := "bot2", Password := "hunter3", SentryHash := "" }

/-- A bot that logged on and was then disconnected. -/
def droppedBot : Bot :=
  connectBot (newBot sampleCfg) sampleCfg [(false, .Connected), (false, .LoggedOn),
    (false, .Disconnected)]

/-- A bot that logged on. -/
def readyBot : Bot :=
  connectBot (newBot sampleCfg) sampleCfg [(false, .Connected), (false, .LoggedOn)]

/-- A registry with one bot, which has logged on. -/
def readyManager : Manager :=
  (((AddBot NewManager sampleCfg).1.start "bot1").deliver "bot1" sampleCfg .Connected).deliver
    "bot1" sampleCfg .LoggedOn

/-- A lobby name of 100 two-byte characters. -/
def accentedName : String := String.mk (List.replicate 100 'é')

/-- A lobby name of 100 one-byte characters. -/
def plainName : String := String.mk (List.replicate 100 'a')

/-- The body `{"lobby_name": name, "password": password}`, as the decoder reads it. -/
def createBody (name password : String) : Body :=
  { asLobbyCreateRequest :=
      .ok { LobbyName := name, Password := password, ServerRegion := "", GameMode := "" },
    asLobbyInfoRequest := .ok { LobbyID := "" } }

/-- A `POST /lobby/create` request with the body `{"lobby_name": name, "password": password}`. -/
def createRequest (name password : String) : Request :=
  { Method := "POST", Header := [("X-API-Key", ["k-secret"])], Query := [],
    Body := createBody name password }

/-- The request of the scenarios: `POST /lobby/create` with `{"lobby_name":"semifinals"}`. -/
def semifinalsRequest : Request :=
  { Method := "POST", Header := [("X-API-Key", ["k-secret"])], Query := [],
    Body := createBody "semifinals" "" }

/-- A server with the key `k-secret` and no bots. -/
def emptyServer : Server := { botManager := NewManager, apiKey := "k-secret" }

/-- A server with the key `k-secret` and one Ready bot. -/
def readyServer : Server := { botManager := readyManager, apiKey := "k-secret" }

/-- A `GET /bots` request with a wrong `X-API-Key` and the right bearer token. -/
def conflictingRequest : Request :=
  { Method := "GET",
    Header := [("X-API-Key", ["wrong"]), ("Authorization", ["Bearer k-secret"])],
    Query := [], Body := .invalid "EOF" }

/-- A `GET /bots` request with the right bearer token only. -/
def bearerRequest : Request :=
  { Method := "GET", Header := [("Authorization", ["Bearer k-secret"])],
    Query := [], Body := .invalid "EOF" }

/-- A `GET /lobby/info?lobby_id=42` request. -/
def infoRequest : Request :=
  { Method := "GET", Header := [("X-API-Key", ["k-secret"])], Query := [("lobby_id", ["42"])],
    Body := .invalid "EOF" }

/-- A `POST /lobby/info` request with the body `{}`, which sets no field. -/
def infoPostEmpty : Request :=
  { Method := "POST", Header := [], Query := [], Body := createBody "" "" }

/-- A `POST /lobby/info` request with the body `{"lobby_id":"42"}`. -/
def infoPost42 : Request :=
  { Method := "POST", Header := [], Query := [],
    Body := { asLobbyCreateRequest :=
                .ok { LobbyName := "", Password := "", ServerRegion := "", GameMode := "" },
              asLobbyInfoRequest := .ok { LobbyID := "42" } } }

/-- A configuration with a valid port and no bots. -/
def zeroBotConfig : Internal.Config :=
  { Server := { Port := 8080, Host := "0.0.0.0" }, Bots := [], Steam := { APIKey := "" } }

/-- A configuration with a valid port and one bot. -/
def oneBotConfig : Internal.Config :=
  { Server := { Port := 8080, Host := "0.0.0.0" },
    Bots := [{ Name := "one", Username := "bot1", Password := "hunter2", Enabled := true }],
    Steam := { APIKey := "" } }

/-! ## The bot state machine -/

theorem connectBotEvent_handle (bot : Bot) (cfg : BotConfig) (e : SteamEvent)
    (h : bot.connected = true → bot.dotaClient.isSome = true) :
    (connectBotEvent bot cfg e).connected = true →
      (connectBotEvent bot cfg e).dotaClient.isSome = true := by
  cases e <;> simp [connectBotEvent] <;> exact h

theorem connectBotLoop_handle (cfg : BotConfig) (events : List (Bool × SteamEvent)) :
    ∀ bot : Bot, (bot.connected = true → bot.dotaClient.isSome = true) →
      (connectBotLoop bot cfg events).connected = true →
        (connectBotLoop bot cfg events).dotaClient.isSome = true := by
  induction events with
  | nil => intro bot h; simpa [connectBotLoop] using h
  | cons de rest ih =>
    intro bot h
    obtain ⟨done, e⟩ := de
    cases done with
    | true => simpa [connectBotLoop] using h
    | false =>
      simpa [connectBotLoop] using ih (connectBotEvent bot cfg e)
        (connectBotEvent_handle bot cfg e h)

/-- C1, as the claim states it, fails: after `LoggedOn` and then `Disconnected` the bot is
not Ready (`connected` is false) while its GC handle `dotaClient` is still non-nil. -/
theorem connectBot_handle_iff_ready_fails :
    ¬ (droppedBot.dotaClient.isSome = true ↔ droppedBot.connected = true) := by
  decide

/-- C1, amended: for every bot configuration and every finite sequence of Steam events
processed by `connectBot` from a freshly added bot (each with the state of the context at
that moment), a bot that is Ready (`connected`) has a non-nil GC handle. Every prefix of a
sequence is a sequence, so this holds after each event. -/
theorem connectBot_ready_has_handle (cfg : BotConfig) (events : List (Bool × SteamEvent)) :
    (connectBot (newBot cfg) cfg events).connected = true →
      (connectBot (newBot cfg) cfg events).dotaClient.isSome = true := by
  unfold connectBot
  apply connectBotLoop_handle
  simp [newBot, connectBotStart]

/-- Witness of C1 (amended): the bot that has logged on is Ready and has its handle. -/
theorem connectBot_ready_has_handle_witness :
    readyBot.connected = true ∧ readyBot.dotaClient.isSome = true :=
  ⟨by decide,
   connectBot_ready_has_handle sampleCfg [(false, .Connected), (false, .LoggedOn)]
     (by decide)⟩

/-- After `Disconnected` or `LogOnFailed` the bot is not Ready: `IsConnected` is false and
`GetDotaClient` returns the error. -/
theorem connectBotEvent_drop (bot : Bot) (cfg : BotConfig) (e : SteamEvent)
    (he : e = .Disconnected ∨ ∃ r, e = .LogOnFailed r) :
    (connectBotEvent bot cfg e).IsConnected = false ∧
      (connectBotEvent bot cfg e).GetDotaClient = (none, some "bot is not connected") := by
  rcases he with rfl | ⟨r, rfl⟩ <;> simp [connectBotEvent, Bot.IsConnected, Bot.GetDotaClient]

/-- A bot that is not Ready stays so under every event but `LoggedOn`. -/
theorem connectBotEvent_stays_down (bot : Bot) (cfg : BotConfig) (e : SteamEvent)
    (hb : bot.connected = false) (he : e ≠ .LoggedOn) :
    (connectBotEvent bot cfg e).connected = false := by
  cases e <;> simp_all [connectBotEvent]

/-- C2 at the failing input: a Ready bot that processes `LoggedOff` is still Ready.
`IsConnected` is true, `GetDotaClient` returns the handle and no error, and `ListBots`
reports true for it. -/
theorem connectBot_LoggedOff_still_ready :
    readyBot.IsConnected = true ∧
    (connectBotEvent readyBot sampleCfg (.LoggedOff 6)).IsConnected = true ∧
    (connectBotEvent readyBot sampleCfg (.LoggedOff 6)).GetDotaClient.2 = none ∧
    (connectBotEvent readyBot sampleCfg (.LoggedOff 6)).GetDotaClient.1.isSome = true ∧
    ListBots (readyManager.deliver "bot1" sampleCfg (.LoggedOff 6)) = [("bot1", true)] := by
  decide

/-! ## The registry -/

theorem firstConnected_some (bots : GoMap Bot) (b : Bot) (h : firstConnected bots = some b) :
    (∃ k, (k, b) ∈ bots) ∧ b.connected = true := by
  induction bots with
  | nil => simp [firstConnected] at h
  | cons kb rest ih =>
    obtain ⟨k, bot⟩ := kb
    by_cases hc : bot.connected = true
    · simp only [firstConnected, hc, if_true, Option.some.injEq] at h
      subst h
      exact ⟨⟨k, List.mem_cons_self _ _⟩, hc⟩
    · simp only [firstConnected, hc] at h
      obtain ⟨⟨k', hk⟩, hb⟩ := ih h
      exact ⟨⟨k', List.mem_cons_of_mem _ hk⟩, hb⟩

theorem firstConnected_none (bots : GoMap Bot) :
    firstConnected bots = none ↔ ∀ kb ∈ bots, kb.2.connected = false := by
  induction bots with
  | nil => simp [firstConnected]
  | cons kb rest ih =>
    obtain ⟨k, bot⟩ := kb
    by_cases hc : bot.connected = true
    · simp [firstConnected, hc]
    · simp only [Bool.not_eq_true] at hc
      simp [firstConnected, hc, ih]

theorem GetAvailableBot_ok (m : Manager) (b : Bot) (h : GetAvailableBot m = .ok b) :
    (∃ k, (k, b) ∈ m.bots) ∧ b.connected = true := by
  unfold GetAvailableBot at h
  cases hf : firstConnected m.bots with
  | none => simp [hf] at h
  | some b' =>
    simp only [hf, Except.ok.injEq] at h
    subst h
    exact firstConnected_some m.bots b' hf

theorem GetAvailableBot_error_iff (m : Manager) :
    GetAvailableBot m = .error "no available bots" ↔
      ∀ kb ∈ m.bots, kb.2.connected = false := by
  rw [← firstConnected_none]
  unfold GetAvailableBot
  cases hf : firstConnected m.bots <;> simp

theorem GetAvailableBot_error (m : Manager) (err : String)
    (h : GetAvailableBot m = .error err) : err = "no available bots" := by
  unfold GetAvailableBot at h
  cases hf : firstConnected m.bots with
  | none => simp only [hf, Except.error.injEq] at h; exact h.symm
  | some b' => simp [hf] at h

/-- C3: for every registry, in every order of its entries, `GetAvailableBot` returns a bot
only if that bot is in the registry and its `connected` flag is true, and it returns the
error `no available bots` exactly when no registered bot is connected; it has no other
error, and on the empty registry it returns that error. -/
theorem GetAvailableBot_spec (m : Manager) :
    (∀ b, GetAvailableBot m = .ok b → (∃ k, (k, b) ∈ m.bots) ∧ b.connected = true) ∧
    (GetAvailableBot m = .error "no available bots" ↔
      ∀ kb ∈ m.bots, kb.2.connected = false) ∧
    (∀ err, GetAvailableBot m = .error err → err = "no available bots") ∧
    GetAvailableBot NewManager = .error "no available bots" := by
  exact ⟨GetAvailableBot_ok m, GetAvailableBot_error_iff m, GetAvailableBot_error m, rfl⟩

/-- Witness of C3: in a registry whose first bot is down and whose second is Ready,
`GetAvailableBot` returns the second, a connected member. -/
theorem GetAvailableBot_spec_witness :
    GetAvailableBot { bots := [("bot1", droppedBot), ("bot2", readyBot)], ctxDone := false }
      = .ok readyBot ∧
    ((∃ k, (k, readyBot) ∈ [("bot1", droppedBot), ("bot2", readyBot)]) ∧
      readyBot.connected = true) :=
  ⟨rfl,
   (GetAvailableBot_spec
      { bots := [("bot1", droppedBot), ("bot2", readyBot)], ctxDone := false }).1 readyBot
      rfl⟩

/-! ## Adding bots -/

theorem GoMap.get?_eq_none {α : Type} (m : GoMap α) (k : String) :
    m.get? k = none ↔ k ∉ m.keys := by
  induction m with
  | nil => simp [GoMap.get?, GoMap.keys]
  | cons kv rest ih =>
    obtain ⟨k', v⟩ := kv
    by_cases hk : k' = k
    · simp [GoMap.get?, GoMap.keys, hk]
    · have hk' : ¬ k = k' := fun h => hk h.symm
      simpa [GoMap.get?, GoMap.keys, hk, hk'] using ih

theorem GoMap.set_fresh {α : Type} (m : GoMap α) (k : String) (v : α) (hk : k ∉ m.keys) :
    m.set k v = m ++ [(k, v)] := by
  induction m with
  | nil => simp [GoMap.set]
  | cons kv rest ih =>
    obtain ⟨k', v'⟩ := kv
    simp only [GoMap.keys, List.map_cons, List.mem_cons, not_or] at hk
    have hk' : ¬ k' = k := fun h => hk.1 h.symm
    simp only [GoMap.set, hk', if_false, List.cons_append, List.cons.injEq, true_and]
    exact ih hk.2

theorem ListBots_fold (bots : GoMap Bot) :
    ∀ acc : GoMap Bool, (acc.keys ++ bots.keys).Nodup →
      bots.foldl (fun result kb => result.set kb.1 kb.2.connected) acc
        = acc ++ bots.map fun kb => (kb.1, kb.2.connected) := by
  induction bots with
  | nil => intro acc _; simp
  | cons kb rest ih =>
    intro acc h
    have hfresh : kb.1 ∉ acc.keys := by
      intro hmem
      have := (List.nodup_append.1 h).2.2
      exact this hmem (by simp [GoMap.keys])
    rw [List.foldl_cons, GoMap.set_fresh acc kb.1 _ hfresh, ih]
    · simp
    · simpa [GoMap.keys, List.append_assoc] using h

theorem ListBots_eq_map (m : Manager) (h : m.bots.keys.Nodup) :
    ListBots m = m.bots.map fun kb => (kb.1, kb.2.connected) := by
  unfold ListBots
  rw [ListBots_fold m.bots [] (by simpa [GoMap.keys] using h)]
  simp

theorem AddBot_error_iff (m : Manager) (cfg : BotConfig) :
    (AddBot m cfg).2 = some ("bot with username " ++ cfg.Username ++ " already exists") ↔
      cfg.Username ∈ m.bots.keys := by
  unfold AddBot
  cases hg : m.bots.get? cfg.Username with
  | none => simpa using (GoMap.get?_eq_none m.bots cfg.Username).1 hg
  | some b =>
    have : ¬ cfg.Username ∉ m.bots.keys := fun hn => by
      rw [(GoMap.get?_eq_none m.bots cfg.Username).2 hn] at hg
      exact Option.noConfusion hg
    simpa using this

theorem AddBot_ok_iff (m : Manager) (cfg : BotConfig) :
    (AddBot m cfg).2 = none ↔ cfg.Username ∉ m.bots.keys := by
  unfold AddBot
  cases hg : m.bots.get? cfg.Username with
  | none => simpa using (GoMap.get?_eq_none m.bots cfg.Username).1 hg
  | some b =>
    have : ¬ cfg.Username ∉ m.bots.keys := fun hn => by
      rw [(GoMap.get?_eq_none m.bots cfg.Username).2 hn] at hg
      exact Option.noConfusion hg
    simpa using this

theorem AddBot_bots (m : Manager) (cfg : BotConfig) (h : cfg.Username ∉ m.bots.keys) :
    (AddBot m cfg).1.bots = m.bots ++ [(cfg.Username, newBot cfg)] := by
  unfold AddBot
  rw [(GoMap.get?_eq_none m.bots cfg.Username).2 h]
  exact GoMap.set_fresh m.bots cfg.Username _ h

theorem AddBot_duplicate (m : Manager) (cfg : BotConfig) (h : cfg.Username ∈ m.bots.keys) :
    (AddBot m cfg).1 = m := by
  unfold AddBot
  cases hg : m.bots.get? cfg.Username with
  | none => exact absurd h ((GoMap.get?_eq_none m.bots cfg.Username).1 hg)
  | some b => rfl

theorem AddBot_nodup (m : Manager) (cfg : BotConfig) (h : m.bots.keys.Nodup) :
    (AddBot m cfg).1.bots.keys.Nodup := by
  by_cases hk : cfg.Username ∈ m.bots.keys
  · rw [AddBot_duplicate m cfg hk]; exact h
  · rw [AddBot_bots m cfg hk]
    simp only [GoMap.keys, List.map_append, List.map_cons, List.map_nil]
    rw [List.nodup_append]
    refine ⟨h, List.nodup_singleton _, ?_⟩
    intro a ha hb
    simp only [List.mem_singleton] at hb
    subst hb
    exact hk ha

theorem addBots_count (cfgs : List BotConfig) :
    ∀ m : Manager, m.bots.keys.Nodup →
      (addBots m cfgs).1.bots.keys.Nodup ∧
      (addBots m cfgs).2.length = cfgs.length ∧
      (addBots m cfgs).1.bots.length + ((addBots m cfgs).2.filter Option.isSome).length
        = m.bots.length + cfgs.length := by
  induction cfgs with
  | nil => intro m h; simpa [addBots] using h
  | cons cfg rest ih =>
    intro m h
    obtain ⟨h1, h2, h3⟩ := ih (AddBot m cfg).1 (AddBot_nodup m cfg h)
    refine ⟨by simpa [addBots] using h1, by simpa [addBots] using h2, ?_⟩
    by_cases hk : cfg.Username ∈ m.bots.keys
    · have he := (AddBot_error_iff m cfg).2 hk
      rw [AddBot_duplicate m cfg hk] at h3
      simp only [addBots, AddBot_duplicate m cfg hk, he, List.filter_cons, Option.isSome_some,
        if_true, List.length_cons]
      omega
    · have he := (AddBot_ok_iff m cfg).2 hk
      rw [AddBot_bots m cfg hk] at h3
      simp only [List.length_append, List.length_cons, List.length_nil] at h3
      simp only [addBots, he, List.length_cons]
      simp only [List.filter_cons, Option.isSome_none]
      simp only [Bool.false_eq_true, if_false]
      omega

/-- C4: for every sequence of `AddBot` calls on a new manager, the number of entries of
`ListBots()` is the number of calls minus the number of calls that returned an error;
for every registry, `AddBot` returns an error exactly when the username is already
registered, that error is the duplicate-username error, and the registry is then
unchanged (so are its keys and the record of that username). -/
theorem AddBot_spec (cfgs : List BotConfig) (m : Manager) (cfg : BotConfig) :
    (ListBots (addBots NewManager cfgs).1).length
      = cfgs.length - ((addBots NewManager cfgs).2.filter Option.isSome).length ∧
    ((AddBot m cfg).2 ≠ none ↔ cfg.Username ∈ m.bots.keys) ∧
    ((AddBot m cfg).2 ≠ none →
      (AddBot m cfg).2 = some ("bot with username " ++ cfg.Username ++ " already exists") ∧
      (AddBot m cfg).1 = m ∧
      (AddBot m cfg).1.bots.keys = m.bots.keys ∧
      (AddBot m cfg).1.bots.get? cfg.Username = m.bots.get? cfg.Username) := by
  have hiff : (AddBot m cfg).2 ≠ none ↔ cfg.Username ∈ m.bots.keys := by
    rw [Ne, AddBot_ok_iff]; exact not_not
  refine ⟨?_, hiff, ?_⟩
  · obtain ⟨h1, _, h3⟩ := addBots_count cfgs NewManager (by simp [NewManager, GoMap.keys])
    rw [ListBots_eq_map _ h1, List.length_map]
    have h0 : NewManager.bots.length = 0 := rfl
    omega
  · intro h
    have hk := hiff.1 h
    refine ⟨(AddBot_error_iff m cfg).2 hk, AddBot_duplicate m cfg hk, ?_, ?_⟩ <;>
      rw [AddBot_duplicate m cfg hk]

/-- Witness of C4: adding `bot1`, `bot2` and `bot1` again gives two entries, one error,
and the third call leaves the registry as it was. -/
theorem AddBot_spec_witness :
    (AddBot (addBots NewManager [sampleCfg, sampleCfg2]).1 sampleCfg).2 ≠ none ∧
    (ListBots (addBots NewManager [sampleCfg, sampleCfg2, sampleCfg]).1).length = 3 - 1 ∧
    (AddBot (addBots NewManager [sampleCfg, sampleCfg2]).1 sampleCfg).1
      = (addBots NewManager [sampleCfg, sampleCfg2]).1 :=
  ⟨by decide,
   (AddBot_spec [sampleCfg, sampleCfg2, sampleCfg] NewManager sampleCfg).1,
   ((AddBot_spec [] (addBots NewManager [sampleCfg, sampleCfg2]).1 sampleCfg).2.2
      (by decide)).2.1⟩

/-! ## Validation of a lobby creation request -/

/-- What the validation of `handleCreateLobby` does: a decodable `POST` is answered 400
exactly when `lobby_name` is empty, or longer than 100 bytes, or `password` is longer than
50 bytes. -/
theorem handleCreateLobby_validation (s : Server) (r : Request) (req : LobbyCreateRequest)
    (cfg : BotConfig) (between : List (Bool × SteamEvent))
    (hpost : r.Method = "POST") (hdec : decodeLobbyCreateRequest r.Body = .ok req) :
    (s.handleCreateLobby r cfg between).StatusCode = 400 ↔
      (req.LobbyName = "" ∨ goLen req.LobbyName > 100 ∨ goLen req.Password > 50) := by
  unfold Server.handleCreateLobby
  simp only [hpost, hdec, ne_eq, not_true_eq_false, if_false]
  by_cases h1 : req.LobbyName = ""
  · simp [h1, httpError]
  by_cases h2 : goLen req.LobbyName > 100
  · simp [h1, h2, httpError]
  by_cases h3 : goLen req.Password > 50
  · simp [h1, h2, h3, httpError]
  simp only [h1, h2, h3, if_false, false_or, iff_false]
  cases GetAvailableBot s.botManager with
  | error err => simp [httpError]
  | ok b =>
    simp only []
    split <;> simp [httpError, jsonResponse]

/-- C5 at the failing input: a `lobby_name` of exactly 100 characters, each of two bytes,
is rejected with 400 `lobby_name must be 100 characters or less`, because the code compares
the number of bytes (200) with 100, whatever happens to the bots meanwhile; the same request
with 100 one-byte characters is accepted (201). -/
theorem handleCreateLobby_rejects_100_accented :
    accentedName.length = 100 ∧ goLen accentedName = 200 ∧
    (∀ (cfg : BotConfig) (between : List (Bool × SteamEvent)),
      readyServer.handleCreateLobby (createRequest accentedName "") cfg between
        = httpError "lobby_name must be 100 characters or less" 400) ∧
    plainName.length = 100 ∧
    (readyServer.handleCreateLobby (createRequest plainName "") sampleCfg []).StatusCode
      = 201 := by
  refine ⟨by decide, by decide, ?_, by decide, by decide⟩
  intro cfg between
  have h1 : ¬ accentedName = "" := by decide
  have h2 : goLen accentedName > 100 := by decide
  simp [Server.handleCreateLobby, createRequest, createBody, decodeLobbyCreateRequest, h1, h2]

/-! ## Authentication -/

/-! ### `[]byte` is injective on strings -/

theorem or_192 : ∀ x : Fin 32, (x.val ||| 192) = 192 + x.val := by decide
theorem or_128 : ∀ x : Fin 64, (x.val ||| 128) = 128 + x.val := by decide
theorem or_224 : ∀ x : Fin 16, (x.val ||| 224) = 224 + x.val := by decide
theorem or_240 : ∀ x : Fin 8, (x.val ||| 240) = 240 + x.val := by decide

theorem uint8_toNat_or (x y : UInt8) : UInt8.toNat (x ||| y) = x.toNat ||| y.toNat := by
  show (x.toBitVec ||| y.toBitVec).toNat = _
  exact BitVec.toNat_or _ _

theorem uint32_toNat_shiftRight (a : UInt32) (k : Nat) (h : k < 32) :
    (a >>> (UInt32.ofNat k)).toNat = a.toNat / 2 ^ k := by
  show (a.toBitVec >>> (UInt32.mod (UInt32.ofNat k) 32).toBitVec).toNat = _
  have : (UInt32.mod (UInt32.ofNat k) 32).toBitVec.toNat = k := by
    show ((BitVec.ofNat 32 k) % (BitVec.ofNat 32 32)).toNat = k
    simp
    omega
  rw [BitVec.ushiftRight_eq', BitVec.toNat_ushiftRight, this, Nat.shiftRight_eq_div_pow]
  rfl

theorem uint32_toNat_toUInt8 (a : UInt32) : a.toUInt8.toNat = a.toNat % 256 := by
  show (BitVec.ofNat 8 a.toNat).toNat = _
  simp

/-- The value of a byte `(v >>> k).toUInt8 &&& (2 ^ t - 1) ||| m` of the encoding, when the
bits of `m` lie above the low `t` bits. -/
theorem utf8_masked_byte (v : UInt32) (k m : Nat) (hk : k < 32) (t : Nat) (ht : t ≤ 8)
    (hor : ∀ x : Fin (2 ^ t), (x.val ||| m) = m + x.val) (hm : m < 256) :
    ((v >>> (UInt32.ofNat k)).toUInt8 &&& (UInt8.ofNat (2 ^ t - 1)) ||| (UInt8.ofNat m)).toNat
      = m + v.toNat / 2 ^ k % 2 ^ t := by
  rw [uint8_toNat_or, UInt8.and_toNat, uint32_toNat_toUInt8, uint32_toNat_shiftRight v k hk]
  have h1 : (UInt8.ofNat (2 ^ t - 1)).toNat = 2 ^ t - 1 := by
    show (BitVec.ofNat 8 (2 ^ t - 1)).toNat = _
    simp
    have : 2 ^ t ≤ 2 ^ 8 := Nat.pow_le_pow_right (by omega) ht
    have : 0 < 2 ^ t := Nat.pos_pow_of_pos _ (by omega)
    omega
  have h2 : (UInt8.ofNat m).toNat = m := by
    show (BitVec.ofNat 8 m).toNat = _
    simp; omega
  rw [h1, h2, Nat.and_pow_two_sub_one_eq_mod]
  have hlt : v.toNat / 2 ^ k % 256 % 2 ^ t < 2 ^ t :=
    Nat.mod_lt _ (Nat.pos_pow_of_pos _ (by omega))
  have := hor ⟨_, hlt⟩
  simp only at this
  rw [this]
  congr 1
  have : (2:Nat) ^ t ∣ 256 := by
    have : (256 : Nat) = 2 ^ 8 := by norm_num
    rw [this]
    exact Nat.pow_dvd_pow 2 ht
  exact Nat.mod_mod_of_dvd _ this

theorem utf8_low_byte (v : UInt32) : (v.toUInt8 &&& 63 ||| 128).toNat = 128 + v.toNat % 64 := by
  have := utf8_masked_byte v 0 128 (by omega) 6 (by omega) or_128 (by omega)
  simpa using this

theorem uint32_le_iff (v : UInt32) (k : Nat) (hk : k < 4294967296) :
    v ≤ UInt32.ofNat k ↔ v.toNat ≤ k := by
  rw [UInt32.le_def, BitVec.le_def]
  show v.toNat ≤ (BitVec.ofNat 32 k).toNat ↔ _
  simp
  have : k % 4294967296 = k := Nat.mod_eq_of_lt hk
  rw [this]

/-- The bytes that `String.utf8EncodeChar` produces have the values `utf8Values`. -/
theorem utf8EncodeChar_toNat (c : Char) :
    (String.utf8EncodeChar c).map UInt8.toNat = utf8Values c.val.toNat := by
  have h1 : c.val ≤ 127 ↔ c.val.toNat ≤ 127 := uint32_le_iff c.val 127 (by omega)
  have h2 : c.val ≤ 2047 ↔ c.val.toNat ≤ 2047 := uint32_le_iff c.val 2047 (by omega)
  have h3 : c.val ≤ 65535 ↔ c.val.toNat ≤ 65535 := uint32_le_iff c.val 65535 (by omega)
  have b0 := uint32_toNat_toUInt8 c.val
  have l0 := utf8_low_byte c.val
  have l1 : ((c.val >>> 6).toUInt8 &&& 31 ||| 192).toNat = 192 + c.val.toNat / 64 % 32 :=
    utf8_masked_byte c.val 6 192 (by omega) 5 (by omega) or_192 (by omega)
  have l2 : ((c.val >>> 6).toUInt8 &&& 63 ||| 128).toNat = 128 + c.val.toNat / 64 % 64 :=
    utf8_masked_byte c.val 6 128 (by omega) 6 (by omega) or_128 (by omega)
  have l3 : ((c.val >>> 12).toUInt8 &&& 63 ||| 128).toNat = 128 + c.val.toNat / 4096 % 64 :=
    utf8_masked_byte c.val 12 128 (by omega) 6 (by omega) or_128 (by omega)
  have l4 : ((c.val >>> 12).toUInt8 &&& 15 ||| 224).toNat = 224 + c.val.toNat / 4096 % 16 :=
    utf8_masked_byte c.val 12 224 (by omega) 4 (by omega) or_224 (by omega)
  have l5 : ((c.val >>> 18).toUInt8 &&& 7 ||| 240).toNat = 240 + c.val.toNat / 262144 % 8 :=
    utf8_masked_byte c.val 18 240 (by omega) 3 (by omega) or_240 (by omega)
  unfold String.utf8EncodeChar utf8Values
  simp only
  by_cases c1 : c.val.toNat ≤ 127
  · rw [if_pos (h1.2 c1), if_pos c1]
    simp only [List.map_cons, List.map_nil, b0]
  rw [if_neg (fun h => c1 (h1.1 h)), if_neg c1]
  by_cases c2 : c.val.toNat ≤ 2047
  · rw [if_pos (h2.2 c2), if_pos c2]
    simp only [List.map_cons, List.map_nil, l0, l1]
  rw [if_neg (fun h => c2 (h2.1 h)), if_neg c2]
  by_cases c3 : c.val.toNat ≤ 65535
  · rw [if_pos (h3.2 c3), if_pos c3]
    simp only [List.map_cons, List.map_nil, l0, l2, l4]
  rw [if_neg (fun h => c3 (h3.1 h)), if_neg c3]
  simp only [List.map_cons, List.map_nil, l0, l2, l3, l5]

/-- The encoding is a prefix code: the encoding of a code point followed by more bytes
determines the code point and the bytes that follow. -/
theorem utf8Values_inj (n n' : Nat) (r r' : List Nat) (hn : n < 2097152) (hn' : n' < 2097152)
    (h : utf8Values n ++ r = utf8Values n' ++ r') : n = n' ∧ r = r' := by
  unfold utf8Values at h
  split_ifs at h <;>
    simp only [List.cons_append, List.nil_append, List.cons.injEq] at h <;>
    first
      | (obtain ⟨h1, h2⟩ := h; exact ⟨by omega, h2⟩)
      | (obtain ⟨h1, h2, h3⟩ := h; exact ⟨by omega, h3⟩)
      | (obtain ⟨h1, h2, h3, h4⟩ := h; exact ⟨by omega, h4⟩)
      | (obtain ⟨h1, h2, h3, h4, h5⟩ := h; exact ⟨by omega, h5⟩)
      | (exfalso; obtain ⟨h1, h2⟩ := h; omega)

theorem utf8Values_ne_nil (n : Nat) : utf8Values n ≠ [] := by
  unfold utf8Values
  split_ifs <;> simp

theorem utf8Values_flatMap_inj (l : List Char) :
    ∀ l' : List Char,
      l.flatMap (fun c => utf8Values c.val.toNat) = l'.flatMap (fun c => utf8Values c.val.toNat) →
        l = l' := by
  induction l with
  | nil =>
    intro l' h
    cases l' with
    | nil => rfl
    | cons c' r' =>
      simp only [List.flatMap_nil, List.flatMap_cons] at h
      have := utf8Values_ne_nil c'.val.toNat
      cases hh : utf8Values c'.val.toNat with
      | nil => exact absurd hh this
      | cons a t => rw [hh] at h; simp at h
  | cons c r ih =>
    intro l' h
    cases l' with
    | nil =>
      simp only [List.flatMap_nil, List.flatMap_cons] at h
      have := utf8Values_ne_nil c.val.toNat
      cases hh : utf8Values c.val.toNat with
      | nil => exact absurd hh this
      | cons a t => rw [hh] at h; simp at h
    | cons c' r' =>
      simp only [List.flatMap_cons] at h
      have hv : ∀ d : Char, d.val.toNat < 2097152 := by
        intro d
        rcases d.valid with h1 | ⟨_, h2⟩
        · have : d.val.toNat < 55296 := h1
          omega
        · have : d.val.toNat < 1114112 := h2
          omega
      obtain ⟨h1, h2⟩ := utf8Values_inj _ _ _ _ (hv c) (hv c') h
      have hc : c = c' := Char.ext (UInt32.toNat.inj h1)
      rw [hc, ih r' h2]

theorem goBytes_toNat (s : String) :
    (goBytes s).map UInt8.toNat = s.data.flatMap (fun c => utf8Values c.val.toNat) := by
  unfold goBytes String.toUTF8
  simp only [List.map_flatMap]
  congr 1
  funext c
  exact utf8EncodeChar_toNat c

/-- Two strings with the same bytes are equal: comparing `[]byte(a)` with `[]byte(b)`
is comparing `a` with `b`. -/
theorem goBytes_inj (a b : String) (h : goBytes a = goBytes b) : a = b := by
  have h1 : (goBytes a).map UInt8.toNat = (goBytes b).map UInt8.toNat := by rw [h]
  rw [goBytes_toNat, goBytes_toNat] at h1
  have := utf8Values_flatMap_inj _ _ h1
  exact String.ext this

theorem goBytes_eq_iff (a b : String) : goBytes a = goBytes b ↔ a = b :=
  ⟨goBytes_inj a b, fun h => by rw [h]⟩

/-! ### The middleware -/

theorem goBytes_append (a b : String) : goBytes (a ++ b) = goBytes a ++ goBytes b := by
  simp [goBytes, String.toUTF8]

theorem utf8EncodeChar_ne_nil (c : Char) : String.utf8EncodeChar c ≠ [] := by
  unfold String.utf8EncodeChar
  intro h
  simp only at h
  split_ifs at h

theorem goBytes_eq_nil (s : String) : goBytes s = [] ↔ s = "" := by
  constructor
  · intro h
    obtain ⟨l⟩ := s
    cases l with
    | nil => rfl
    | cons c rest => simp [goBytes, String.toUTF8, utf8EncodeChar_ne_nil] at h
  · rintro rfl; rfl

theorem bearer_split (a k : List UInt8) (hk : k ≠ []) :
    (a.length > goLen bearerPrefix ∧ a.take (goLen bearerPrefix) = goBytes bearerPrefix ∧
      a.drop (goLen bearerPrefix) = k) ↔ a = goBytes bearerPrefix ++ k := by
  have h7 : goLen bearerPrefix = 7 := by decide
  have hl : (goBytes bearerPrefix).length = 7 := by decide
  constructor
  · rintro ⟨_, ht, hd⟩
    rw [← List.take_append_drop (goLen bearerPrefix) a, ht, hd]
  · rintro rfl
    have hk' : 0 < k.length := List.length_pos.2 hk
    refine ⟨by rw [List.length_append, hl, h7]; omega, ?_, ?_⟩
    · rw [h7, ← hl, List.take_left]
    · rw [h7, ← hl, List.drop_left]

/-- The test of `authMiddleware` on a request, for a non-empty configured key: which
requests reach the wrapped handler. -/
theorem authMiddleware_eq (s : Server) (next : Request → Response) (r : Request)
    (hK : s.apiKey ≠ "") :
    s.authMiddleware next r =
      if Values.Get r.Header "X-API-Key" = s.apiKey ∨
          (Values.Get r.Header "X-API-Key" = "" ∧
            Values.Get r.Header "Authorization" = bearerPrefix ++ s.apiKey) then next r
      else httpError "Unauthorized: Invalid or missing API key" 401 := by
  have hkb : goBytes s.apiKey ≠ [] := fun h => hK ((goBytes_eq_nil _).1 h)
  have hsplit := bearer_split (goBytes (Values.Get r.Header "Authorization")) _ hkb
  rw [← goBytes_append, goBytes_eq_iff] at hsplit
  unfold Server.authMiddleware ConstantTimeCompare
  simp only [hK, if_false]
  by_cases hX : Values.Get r.Header "X-API-Key" = ""
  · have hne : ¬ goBytes "" = goBytes s.apiKey := fun h => hkb h.symm
    have hne' : ¬ "" = s.apiKey := fun h => hK h.symm
    simp only [hX, if_true, true_and, hne', false_or]
    by_cases hg : (goBytes (Values.Get r.Header "Authorization")).length > goLen bearerPrefix ∧
        (goBytes (Values.Get r.Header "Authorization")).take (goLen bearerPrefix)
          = goBytes bearerPrefix
    · rw [if_pos hg]
      by_cases hd : (goBytes (Values.Get r.Header "Authorization")).drop (goLen bearerPrefix)
          = goBytes s.apiKey
      · have := hsplit.1 ⟨hg.1, hg.2, hd⟩
        rw [hd, if_pos this]
        simp
      · have : ¬ Values.Get r.Header "Authorization" = bearerPrefix ++ s.apiKey :=
          fun h => hd (hsplit.2 h).2.2
        simp [hd, this]
    · rw [if_neg hg]
      have : ¬ Values.Get r.Header "Authorization" = bearerPrefix ++ s.apiKey :=
        fun h => hg ⟨(hsplit.2 h).1, (hsplit.2 h).2.1⟩
      simp [hne, this]
  · simp only [hX, if_false, false_and, or_false]
    by_cases he : Values.Get r.Header "X-API-Key" = s.apiKey
    · simp [he]
    · have : ¬ goBytes (Values.Get r.Header "X-API-Key") = goBytes s.apiKey :=
        fun h => he (goBytes_inj _ _ h)
      simp [he, this]

/-- C6, as the claim states it, fails: with the key `k-secret`, a request whose
`Authorization` header is `Bearer k-secret` but whose `X-API-Key` header is `wrong` is not
passed to the wrapped handler, it gets 401. -/
theorem authMiddleware_bearer_iff_fails :
    ¬ ((∀ next : Request → Response,
          emptyServer.authMiddleware next conflictingRequest = next conflictingRequest) ↔
        (Values.Get conflictingRequest.Header "X-API-Key" = emptyServer.apiKey ∨
          Values.Get conflictingRequest.Header "Authorization"
            = bearerPrefix ++ emptyServer.apiKey)) := by
  intro h
  have h1 := h.2 (Or.inr (by decide)) emptyServer.handleBots
  revert h1
  decide

/-- C6, amended: with a non-empty configured API key K, `authMiddleware` passes a request to
the wrapped handler if and only if the `X-API-Key` header equals K, or the `X-API-Key` header
is absent or empty and the `Authorization` header equals `Bearer ` followed by K; every
other request gets 401 with the body `Unauthorized: Invalid or missing API key` whatever
the wrapped handler is, which is thus not invoked. -/
theorem authMiddleware_spec (s : Server) (r : Request) (hK : s.apiKey ≠ "") :
    ((∀ next : Request → Response, s.authMiddleware next r = next r) ↔
      (Values.Get r.Header "X-API-Key" = s.apiKey ∨
        (Values.Get r.Header "X-API-Key" = "" ∧
          Values.Get r.Header "Authorization" = bearerPrefix ++ s.apiKey))) ∧
    (¬ (Values.Get r.Header "X-API-Key" = s.apiKey ∨
        (Values.Get r.Header "X-API-Key" = "" ∧
          Values.Get r.Header "Authorization" = bearerPrefix ++ s.apiKey)) →
      ∀ next : Request → Response,
        s.authMiddleware next r = httpError "Unauthorized: Invalid or missing API key" 401) := by
  constructor
  · constructor
    · intro h
      by_contra hc
      have h1 := h fun _ => jsonResponse 200 []
      rw [authMiddleware_eq s _ r hK, if_neg hc] at h1
      exact absurd h1 (by decide)
    · intro hc next
      rw [authMiddleware_eq s next r hK, if_pos hc]
  · intro hc next
    rw [authMiddleware_eq s next r hK, if_neg hc]

/-- Witness of C6 (amended): with the key `k-secret`, a request with only
`Authorization: Bearer k-secret` reaches the handler, and the request with a wrong
`X-API-Key` gets 401. -/
theorem authMiddleware_spec_witness :
    emptyServer.apiKey ≠ "" ∧
    emptyServer.authMiddleware emptyServer.handleBots bearerRequest
      = emptyServer.handleBots bearerRequest ∧
    emptyServer.authMiddleware emptyServer.handleBots conflictingRequest
      = httpError "Unauthorized: Invalid or missing API key" 401 :=
  ⟨by decide,
   (authMiddleware_spec emptyServer bearerRequest (by decide)).1.2 (Or.inr (by decide))
     emptyServer.handleBots,
   (authMiddleware_spec emptyServer conflictingRequest (by decide)).2 (by decide)
     emptyServer.handleBots⟩

/-! ## Lobby creation -/

theorem connectBotEvent_Username (bot : Bot) (cfg : BotConfig) (e : SteamEvent) :
    (connectBotEvent bot cfg e).Username = bot.Username := by
  cases e <;> rfl

theorem Manager.update_inv (m : Manager) (username : String) (f : Bot → Bot)
    (hname : ∀ b, (f b).Username = b.Username)
    (hhandle : ∀ b, (b.connected = true → b.dotaClient.isSome = true) →
      (f b).connected = true → (f b).dotaClient.isSome = true)
    (ih : ∀ kb ∈ m.bots, kb.2.Username = kb.1 ∧
      (kb.2.connected = true → kb.2.dotaClient.isSome = true)) :
    ∀ kb ∈ (m.update username f).bots, kb.2.Username = kb.1 ∧
      (kb.2.connected = true → kb.2.dotaClient.isSome = true) := by
  intro kb hkb
  obtain ⟨a, ha, rfl⟩ := List.mem_map.1 hkb
  by_cases hu : a.1 = username
  · simp only [hu, if_true]
    exact ⟨by rw [hname, (ih a ha).1, hu], hhandle a.2 (ih a ha).2⟩
  · simpa [hu] using ih a ha

/-- In every reachable registry each bot is registered under its own username, and a
connected bot has its GC handle. -/
theorem Reachable_inv (m : Manager) (h : Reachable m) :
    ∀ kb ∈ m.bots, kb.2.Username = kb.1 ∧
      (kb.2.connected = true → kb.2.dotaClient.isSome = true) := by
  induction h with
  | newManager => intro kb hkb; simp [NewManager] at hkb
  | addBot m cfg _ ih =>
    by_cases hk : cfg.Username ∈ m.bots.keys
    · rw [AddBot_duplicate m cfg hk]; exact ih
    · rw [AddBot_bots m cfg hk]
      intro kb hkb
      rcases List.mem_append.1 hkb with h1 | h1
      · exact ih kb h1
      · simp only [List.mem_singleton] at h1
        subst h1
        simp [newBot]
  | start m username _ ih =>
    exact Manager.update_inv m username connectBotStart (fun _ => rfl) (fun _ h => h) ih
  | deliver m username cfg e _ ih =>
    unfold Manager.deliver
    by_cases hd : m.ctxDone = true
    · simpa [hd] using ih
    · simp only [hd]
      exact Manager.update_inv m username _ (fun b => connectBotEvent_Username b cfg e)
        (fun b h => connectBotEvent_handle b cfg e h) ih
  | shutdown m _ ih =>
    intro kb hkb
    simp only [Shutdown] at hkb
    obtain ⟨a, ha, rfl⟩ := List.mem_map.1 hkb
    exact ih a ha
  | reorder m bots _ hp ih =>
    intro kb hkb
    exact ih kb (hp.mem_iff.2 hkb)

theorem connectBotLoop_Username (cfg : BotConfig) (events : List (Bool × SteamEvent)) :
    ∀ bot : Bot, (connectBotLoop bot cfg events).Username = bot.Username := by
  induction events with
  | nil => intro bot; rfl
  | cons de rest ih =>
    intro bot
    obtain ⟨done, e⟩ := de
    cases done with
    | true => rfl
    | false =>
      simp only [connectBotLoop, Bool.false_eq_true, if_false]
      rw [ih, connectBotEvent_Username]

/-- What `handleCreateLobby` answers once the request has passed its validation. -/
theorem handleCreateLobby_valid (s : Server) (r : Request) (req : LobbyCreateRequest)
    (cfg : BotConfig) (between : List (Bool × SteamEvent)) (hpost : r.Method = "POST")
    (hdec : decodeLobbyCreateRequest r.Body = .ok req)
    (hname : req.LobbyName ≠ "") (hlen : goLen req.LobbyName ≤ 100)
    (hpw : goLen req.Password ≤ 50) :
    s.handleCreateLobby r cfg between =
      match GetAvailableBot s.botManager with
      | .error err => httpError ("No available bots: " ++ err) 503
      | .ok availableBot =>
        match (connectBotLoop availableBot cfg between).GetDotaClient.2 with
        | some err => httpError ("Bot not ready: " ++ err) 503
        | none =>
          jsonResponse 201
            [("status", .str "success"),
             ("message", .str "Lobby creation initiated"),
             ("lobby_name", .str req.LobbyName),
             ("bot_used", .str (connectBotLoop availableBot cfg between).Username)] := by
  have hl : ¬ goLen req.LobbyName > 100 := by omega
  have hp : ¬ goLen req.Password > 50 := by omega
  unfold Server.handleCreateLobby
  simp only [hpost, hdec, ne_eq, not_true_eq_false, if_false, hname, hl, hp]

/-- C7, as the claim states it, fails: with one registered bot that is Ready when the handler
selects it and that processes `Disconnected` before the handler fetches its GC handle, the
valid request for the lobby `semifinals` is not answered 201 with a `bot_used`, it is
answered 503 `Bot not ready: bot is not connected`. -/
theorem handleCreateLobby_ready_not_201 :
    ¬ ((∃ kb ∈ readyServer.botManager.bots, kb.2.connected = true) →
        ∃ kb ∈ readyServer.botManager.bots, kb.2.connected = true ∧
          readyServer.handleCreateLobby semifinalsRequest sampleCfg [(false, .Disconnected)]
            = jsonResponse 201
                [("status", .str "success"),
                 ("message", .str "Lobby creation initiated"),
                 ("lobby_name", .str "semifinals"),
                 ("bot_used", .str kb.1)]) := by
  intro h
  obtain ⟨kb, _, _, hresp⟩ := h ⟨("bot1", readyBot), by decide, by decide⟩
  have h503 :
      readyServer.handleCreateLobby semifinalsRequest sampleCfg [(false, .Disconnected)]
        = httpError "Bot not ready: bot is not connected" 503 := by decide
  rw [h503] at hresp
  simp [httpError, jsonResponse] at hresp

/-- C7, amended: for every reachable registry and every `POST /lobby/create` request whose
body decodes and passes the validation of the handler: if no registered bot is Ready when the
handler selects, the response is 503 with the body `No available bots: no available bots`;
otherwise a registered bot that is Ready is selected, and whatever events its goroutine
processes before the handler fetches its GC handle, if the bot is still connected then the
response is 201 with status `success`, `lobby_name` the requested name and `bot_used` the
username of that bot, and if it is not the response is 503 with the body
`Bot not ready: bot is not connected`. -/
theorem handleCreateLobby_spec (s : Server) (r : Request) (req : LobbyCreateRequest)
    (cfg : BotConfig) (between : List (Bool × SteamEvent))
    (hm : Reachable s.botManager) (hpost : r.Method = "POST")
    (hdec : decodeLobbyCreateRequest r.Body = .ok req)
    (hname : req.LobbyName ≠ "") (hlen : goLen req.LobbyName ≤ 100)
    (hpw : goLen req.Password ≤ 50) :
    ((∀ kb ∈ s.botManager.bots, kb.2.connected = false) →
      s.handleCreateLobby r cfg between
        = httpError ("No available bots" ++ ": no available bots") 503) ∧
    ((∃ kb ∈ s.botManager.bots, kb.2.connected = true) →
      ∃ kb ∈ s.botManager.bots, kb.2.connected = true ∧
        ((connectBotLoop kb.2 cfg between).connected = true →
          s.handleCreateLobby r cfg between = jsonResponse 201
            [("status", .str "success"),
             ("message", .str "Lobby creation initiated"),
             ("lobby_name", .str req.LobbyName),
             ("bot_used", .str kb.1)]) ∧
        ((connectBotLoop kb.2 cfg between).connected = false →
          s.handleCreateLobby r cfg between
            = httpError ("Bot not ready" ++ ": bot is not connected") 503)) := by
  have hbody := handleCreateLobby_valid s r req cfg between hpost hdec hname hlen hpw
  constructor
  · intro hnone
    have he := (GetAvailableBot_error_iff s.botManager).2 hnone
    rw [hbody, he]
    rfl
  · rintro ⟨kb, hkb, hc⟩
    cases hg : GetAvailableBot s.botManager with
    | error err =>
      have he := GetAvailableBot_error s.botManager err hg
      subst he
      have := (GetAvailableBot_error_iff s.botManager).1 hg kb hkb
      rw [hc] at this
      exact absurd this (by decide)
    | ok b =>
      obtain ⟨⟨k, hk⟩, hb⟩ := GetAvailableBot_ok s.botManager b hg
      obtain ⟨hu, hh⟩ := Reachable_inv s.botManager hm (k, b) hk
      have hu' : b.Username = k := hu
      have hh' : b.connected = true → b.dotaClient.isSome = true := hh
      refine ⟨(k, b), hk, hb, ?_, ?_⟩
      · intro hlater
        have h2 := connectBotLoop_handle cfg between b hh' hlater
        obtain ⟨d, hd⟩ := Option.isSome_iff_exists.1 h2
        have hnone : (connectBotLoop b cfg between).GetDotaClient.2 = none := by
          simp [Bot.GetDotaClient, hlater, hd]
        rw [hbody, hg]
        simp only [hnone]
        rw [connectBotLoop_Username, hu']
      · intro hlater
        have hsome : (connectBotLoop b cfg between).GetDotaClient.2
            = some "bot is not connected" := by
          simp [Bot.GetDotaClient, hlater]
        rw [hbody, hg]
        simp only [hsome]
        rfl

/-- Witness of C7 (amended): with one Ready bot `bot1`, the request for the lobby
`semifinals` is answered 201 with `bot_used` equal to `bot1` when nothing happens to the bot
meanwhile, and 503 `Bot not ready` when it is disconnected before the handle is fetched. -/
theorem handleCreateLobby_spec_witness :
    Reachable readyServer.botManager ∧
    readyServer.handleCreateLobby semifinalsRequest sampleCfg [] = jsonResponse 201
      [("status", .str "success"),
       ("message", .str "Lobby creation initiated"),
       ("lobby_name", .str "semifinals"),
       ("bot_used", .str "bot1")] ∧
    (∃ kb ∈ readyServer.botManager.bots, kb.2.connected = true ∧
      ((connectBotLoop kb.2 sampleCfg [(false, .Disconnected)]).connected = true →
        readyServer.handleCreateLobby semifinalsRequest sampleCfg [(false, .Disconnected)]
          = jsonResponse 201
            [("status", .str "success"),
             ("message", .str "Lobby creation initiated"),
             ("lobby_name", .str "semifinals"),
             ("bot_used", .str kb.1)]) ∧
      ((connectBotLoop kb.2 sampleCfg [(false, .Disconnected)]).connected = false →
        readyServer.handleCreateLobby semifinalsRequest sampleCfg [(false, .Disconnected)]
          = httpError ("Bot not ready" ++ ": bot is not connected") 503)) :=
  ⟨Reachable.deliver _ _ _ _ (Reachable.deliver _ _ _ _ (Reachable.start _ _
      (Reachable.addBot _ _ Reachable.newManager))),
   by decide,
   (handleCreateLobby_spec readyServer semifinalsRequest
      { LobbyName := "semifinals", Password := "", ServerRegion := "", GameMode := "" }
      sampleCfg [(false, .Disconnected)]
      (Reachable.deliver _ _ _ _ (Reachable.deliver _ _ _ _ (Reachable.start _ _
        (Reachable.addBot _ _ Reachable.newManager))))
      (by decide) rfl (by decide) (by decide) (by decide)).2
      ⟨("bot1", readyBot), by decide, by decide⟩⟩

/-- The steps of the goroutines do not change the keys of the registry. -/
theorem Manager.update_keys (m : Manager) (username : String) (f : Bot → Bot) :
    (m.update username f).bots.keys = m.bots.keys := by
  unfold Manager.update GoMap.keys
  simp only [List.map_map]
  apply List.map_congr_left
  intro kb _
  by_cases hu : kb.1 = username <;> simp [hu]

/-- In every reachable registry the usernames are distinct, so `ListBots()` has one entry
for each registered bot, whatever the goroutines have done in between. -/
theorem Reachable_ListBots (m : Manager) (h : Reachable m) :
    m.bots.keys.Nodup ∧ (ListBots m).length = m.bots.length := by
  have hn : m.bots.keys.Nodup := by
    induction h with
    | newManager => simp [NewManager, GoMap.keys]
    | addBot m cfg _ ih => exact AddBot_nodup m cfg ih
    | start m username _ ih =>
      unfold Manager.start
      rw [Manager.update_keys]
      exact ih
    | deliver m username cfg e _ ih =>
      unfold Manager.deliver
      by_cases hd : m.ctxDone = true
      · simpa [hd] using ih
      · simp only [hd, Bool.false_eq_true, if_false]
        rw [Manager.update_keys]
        exact ih
    | shutdown m _ ih =>
      simpa [Shutdown, GoMap.keys, List.map_map, Function.comp_def] using ih
    | reorder m bots _ hp ih =>
      exact (List.Perm.nodup_iff (hp.map Prod.fst)).1 ih
  exact ⟨hn, by rw [ListBots_eq_map m hn, List.length_map]⟩

/-! ## Lobby information -/

/-- C8 at the failing input: with a registry that has no bot at all, where
`GetAvailableBot` returns its error and `handleCreateLobby` always answers 503, the request
`GET /lobby/info?lobby_id=42` is answered 200 with status `success`: `handleLobbyInfo`
never selects a bot. -/
theorem handleLobbyInfo_success_without_bots :
    GetAvailableBot emptyServer.botManager = .error "no available bots" ∧
    (∀ (cfg : BotConfig) (between : List (Bool × SteamEvent)),
      emptyServer.handleCreateLobby semifinalsRequest cfg between
        = httpError "No available bots: no available bots" 503) ∧
    emptyServer.handleLobbyInfo infoRequest = jsonResponse 200
      [("status", .str "success"),
       ("lobby_id", .str "42"),
       ("message", .str "Lobby info retrieval not yet fully implemented")] :=
  ⟨rfl, fun _ _ => rfl, by decide⟩

/-- The response of `handleLobbyInfo` does not depend on the registry. -/
theorem handleLobbyInfo_ignores_bots (s s' : Server) (r : Request) :
    s.handleLobbyInfo r = s'.handleLobbyInfo r := rfl

/-- C9: for every `/lobby/info` request, an empty `lobby_id` is rejected with 400
`lobby_id is required` when it is read from the query string of a `GET` and when it is read
from the decoded JSON body of a `POST` (a body without a `lobby_id` field decodes with the
zero value, the empty string); and a non-empty `lobby_id`, from either place, is answered
200 and never with that error. -/
theorem handleLobbyInfo_lobby_id (s : Server) (r : Request) (req : LobbyInfoRequest) :
    (r.Method = "GET" → Values.Get r.Query "lobby_id" = "" →
      s.handleLobbyInfo r = httpError "lobby_id is required" 400) ∧
    (r.Method = "POST" → decodeLobbyInfoRequest r.Body = .ok req → req.LobbyID = "" →
      s.handleLobbyInfo r = httpError "lobby_id is required" 400) ∧
    (r.Method = "GET" → Values.Get r.Query "lobby_id" ≠ "" →
      (s.handleLobbyInfo r).StatusCode = 200 ∧
      s.handleLobbyInfo r ≠ httpError "lobby_id is required" 400) ∧
    (r.Method = "POST" → decodeLobbyInfoRequest r.Body = .ok req → req.LobbyID ≠ "" →
      (s.handleLobbyInfo r).StatusCode = 200 ∧
      s.handleLobbyInfo r ≠ httpError "lobby_id is required" 400) := by
  have hpost : r.Method = "POST" → ¬ r.Method = "GET" := by
    intro h1 h2
    rw [h1] at h2
    exact absurd h2 (by decide)
  have hok : ∀ id : String, id ≠ "" →
      (lobbyInfoResponse id).StatusCode = 200 ∧
        lobbyInfoResponse id ≠ httpError "lobby_id is required" 400 := by
    intro id hid
    simp [lobbyInfoResponse, hid, jsonResponse, httpError]
  refine ⟨?_, ?_, ?_, ?_⟩
  · intro hm hq
    simp [Server.handleLobbyInfo, hm, hq, lobbyInfoResponse]
  · intro hm hb hf
    simp [Server.handleLobbyInfo, hm, hpost hm, hb, hf, lobbyInfoResponse]
  · intro hm hq
    have := hok _ hq
    simpa [Server.handleLobbyInfo, hm] using this
  · intro hm hb hf
    have := hok _ hf
    simpa [Server.handleLobbyInfo, hm, hpost hm, hb] using this

/-- Witness of C9: `POST /lobby/info` with the body `{}` is rejected with 400, and
`GET /lobby/info?lobby_id=42` and `POST /lobby/info` with `{"lobby_id":"42"}` are answered
200. -/
theorem handleLobbyInfo_lobby_id_witness :
    emptyServer.handleLobbyInfo infoPostEmpty = httpError "lobby_id is required" 400 ∧
    ((emptyServer.handleLobbyInfo infoRequest).StatusCode = 200 ∧
      emptyServer.handleLobbyInfo infoRequest ≠ httpError "lobby_id is required" 400) ∧
    ((emptyServer.handleLobbyInfo infoPost42).StatusCode = 200 ∧
      emptyServer.handleLobbyInfo infoPost42 ≠ httpError "lobby_id is required" 400) :=
  ⟨(handleLobbyInfo_lobby_id emptyServer infoPostEmpty { LobbyID := "" }).2.1
      (by decide) rfl rfl,
   (handleLobbyInfo_lobby_id emptyServer infoRequest { LobbyID := "" }).2.2.1
      (by decide) (by decide),
   (handleLobbyInfo_lobby_id emptyServer infoPost42 { LobbyID := "42" }).2.2.2
      (by decide) rfl (by decide)⟩

/-! ## Configuration validation -/

namespace Internal

theorem validateBots_none (bots : List BotConfig) :
    ∀ i : Nat, validateBots i bots = none ↔
      ∀ bot ∈ bots, bot.Username ≠ "" ∧ bot.Password ≠ "" := by
  induction bots with
  | nil => intro i; simp [validateBots]
  | cons bot rest ih =>
    intro i
    by_cases hu : bot.Username = ""
    · simp [validateBots, hu]
    by_cases hp : bot.Password = ""
    · simp [validateBots, hu, hp]
    simp [validateBots, hu, hp, ih (i + 1)]

/-- C10, as the claim states it, fails: a configuration with the valid port 8080 and zero
bots is rejected by `validate`, with the error `at least one bot must be configured`. -/
theorem validate_zero_bots_rejected :
    ¬ (validate zeroBotConfig = none ↔
        ((1 ≤ zeroBotConfig.Server.Port ∧ zeroBotConfig.Server.Port ≤ 65535) ∧
          ∀ bot ∈ zeroBotConfig.Bots, bot.Username ≠ "" ∧ bot.Password ≠ "")) := by
  intro h
  have h1 := h.2 ⟨by decide, by intro bot hb; simp [zeroBotConfig] at hb⟩
  revert h1
  decide

/-- C10, amended: `validate` accepts a configuration if and only if `server.port` is in
1..65535, at least one bot is listed, and every listed bot has a non-empty username and a
non-empty password; in particular ports 0 and 65536 are rejected, and a configuration with a
valid port and zero bots is rejected with `at least one bot must be configured`. -/
theorem validate_spec (cfg : Config) :
    (validate cfg = none ↔
      ((1 ≤ cfg.Server.Port ∧ cfg.Server.Port ≤ 65535) ∧ cfg.Bots ≠ [] ∧
        ∀ bot ∈ cfg.Bots, bot.Username ≠ "" ∧ bot.Password ≠ "")) ∧
    (cfg.Server.Port = 0 ∨ cfg.Server.Port = 65536 → validate cfg ≠ none) ∧
    (1 ≤ cfg.Server.Port ∧ cfg.Server.Port ≤ 65535 → cfg.Bots = [] →
      validate cfg = some "at least one bot must be configured") := by
  have hiff : validate cfg = none ↔
      ((1 ≤ cfg.Server.Port ∧ cfg.Server.Port ≤ 65535) ∧ cfg.Bots ≠ [] ∧
        ∀ bot ∈ cfg.Bots, bot.Username ≠ "" ∧ bot.Password ≠ "") := by
    unfold validate
    by_cases hport : cfg.Server.Port ≤ 0 ∨ cfg.Server.Port > 65535
    · rw [if_pos hport]
      constructor
      · intro h; exact absurd h (by simp)
      · rintro ⟨⟨h1, h2⟩, _⟩; omega
    · rw [if_neg hport]
      have hrange : 1 ≤ cfg.Server.Port ∧ cfg.Server.Port ≤ 65535 := by omega
      by_cases hb : cfg.Bots = []
      · simp [hb]
      · have hlen : ¬ cfg.Bots.length = 0 := fun h => hb (List.length_eq_zero.1 h)
        rw [if_neg hlen, validateBots_none]
        simp [hrange, hb]
  refine ⟨hiff, ?_, ?_⟩
  · intro hp hn
    have := (hiff.1 hn).1
    omega
  · intro hrange hb
    have hport : ¬ (cfg.Server.Port ≤ 0 ∨ cfg.Server.Port > 65535) := by omega
    simp [validate, hport, hb]

/-- Witness of C10 (amended): the configuration with port 8080 and one complete bot is
accepted, and the one with port 8080 and no bots is rejected. -/
theorem validate_spec_witness :
    validate oneBotConfig = none ∧
    validate zeroBotConfig = some "at least one bot must be configured" :=
  ⟨(validate_spec oneBotConfig).1.2 ⟨by decide, by decide, by decide⟩,
   (validate_spec zeroBotConfig).2.2 (by decide) rfl⟩

end Internal

/-! ## Fetching the GC handle -/

/-- C11: for every bot state, `GetDotaClient` returns either a non-nil handle with no error
or a nil handle with the error `bot is not connected`, never a nil handle with no error; it
succeeds exactly when `connected` is true and `dotaClient` is non-nil, and then returns that
handle; so a bot that is no longer connected, such as a bot that `GetAvailableBot` selected
and that then processed `Disconnected` or `LogOnFailed`, yields the error and not a nil
handle. -/
theorem GetDotaClient_spec (b : Bot) (m : Manager) (cfg : BotConfig) (r : Int) :
    ((∃ d, b.GetDotaClient = (some d, none)) ∨
      b.GetDotaClient = (none, some "bot is not connected")) ∧
    b.GetDotaClient ≠ (none, none) ∧
    (b.GetDotaClient.2 = none ↔ (b.connected = true ∧ b.dotaClient.isSome = true)) ∧
    (b.GetDotaClient.2 = none → b.GetDotaClient.1 = b.dotaClient) ∧
    (b.connected = false → b.GetDotaClient = (none, some "bot is not connected")) ∧
    (GetAvailableBot m = .ok b →
      (connectBotEvent b cfg .Disconnected).GetDotaClient
        = (none, some "bot is not connected") ∧
      (connectBotEvent b cfg (.LogOnFailed r)).GetDotaClient
        = (none, some "bot is not connected")) := by
  refine ⟨?_, ?_, ?_, ?_, ?_, ?_⟩
  · cases hc : b.connected <;> cases hd : b.dotaClient <;>
      simp [Bot.GetDotaClient, hc, hd]
  · cases hc : b.connected <;> cases hd : b.dotaClient <;>
      simp [Bot.GetDotaClient, hc, hd]
  · cases hc : b.connected <;> cases hd : b.dotaClient <;>
      simp [Bot.GetDotaClient, hc, hd]
  · cases hc : b.connected <;> cases hd : b.dotaClient <;>
      simp [Bot.GetDotaClient, hc, hd]
  · intro hc
    simp [Bot.GetDotaClient, hc]
  · intro _
    exact ⟨(connectBotEvent_drop b cfg .Disconnected (Or.inl rfl)).2,
      (connectBotEvent_drop b cfg (.LogOnFailed r) (Or.inr ⟨r, rfl⟩)).2⟩

/-- Witness of C11: the bot that logged on is selected by `GetAvailableBot` in its registry
and `GetDotaClient` returns its handle with no error; once it has processed `Disconnected`,
`GetDotaClient` returns the error. -/
theorem GetDotaClient_spec_witness :
    readyBot.GetDotaClient.2 = none ∧
    readyBot.GetDotaClient.1 = readyBot.dotaClient ∧
    readyBot.dotaClient.isSome = true ∧
    GetAvailableBot readyManager = .ok readyBot ∧
    (connectBotEvent readyBot sampleCfg .Disconnected).GetDotaClient
      = (none, some "bot is not connected") ∧
    droppedBot.connected = false ∧
    droppedBot.GetDotaClient = (none, some "bot is not connected") :=
  ⟨by decide,
   (GetDotaClient_spec readyBot readyManager sampleCfg 0).2.2.2.1 (by decide),
   by decide,
   rfl,
   ((GetDotaClient_spec readyBot readyManager sampleCfg 0).2.2.2.2.2 rfl).1,
   by decide,
   (GetDotaClient_spec droppedBot readyManager sampleCfg 0).2.2.2.2.1 (by decide)⟩

end DotaLobby
